import Mathlib

/-!
Shallow embedding of the foiatool repository (danem/foiatool) and proofs
about its persistent work-queue / request-lifecycle engine.

The embedding follows the Python source:
* `src/foiatool/data.py` — the peewee/SQLite store (`DBSession` and the four
  tables) is modelled as a pure state type `DBState` holding the table rows
  as lists in insertion order, with each `DBSession` method translated to a
  state-passing function of the same name.  `datetime.now()` call sites take
  an explicit `now : Nat` argument; dates are `Nat` timestamps.  Peewee
  `get_or_none`/`.get()` become `List.find?`; a SQL `UPDATE ... WHERE id = _`
  becomes a `List.map` guarded by the row id; `create` appends a fresh row.
* `src/foiatool/foiatool.py` — `OverWriteGuard` and the orchestration loops
  are modelled over an explicit filesystem state (`FS`, a map from path to
  file content).  `foiatool.py` calls a data-layer API (`mark_document_*`,
  `DocumentRequest`, `document_paths`) that is absent from `data.py` in this
  revision; those missing helpers are modelled from the spec where noted.
* `src/foiatool/apis/nextrequest.py` — the paginated `_search` generator is
  modelled as a fuel-indexed recursion over the remote's page responses.
-/

set_option maxHeartbeats 1000000

namespace Foiatool

/-- `RequestStatus` enum from src/foiatool/data.py (PENDING=1, CLOSED=2,
DOWNLOADED=3, ERROR=4). -/
inductive RequestStatus where
  | PENDING
  | CLOSED
  | DOWNLOADED
  | ERROR
  deriving DecidableEq

/-- The `.value` of a `RequestStatus` member, as stored in the
`request_status` integer column. -/
def RequestStatus.value : RequestStatus → Nat
  | .PENDING => 1
  | .CLOSED => 2
  | .DOWNLOADED => 3
  | .ERROR => 4

/-- `TaskType` enum from src/foiatool/data.py (DOWNLOAD=0, BULK_DOWNLOAD=1,
UPDATE_METADATA=2). -/
inductive TaskType where
  | DOWNLOAD
  | BULK_DOWNLOAD
  | UPDATE_METADATA
  deriving DecidableEq

/-- The `.value` of a `TaskType` member, as stored in the `task_type`
integer column. -/
def TaskType.value : TaskType → Nat
  | .DOWNLOAD => 0
  | .BULK_DOWNLOAD => 1
  | .UPDATE_METADATA => 2

/-- Python `str.lower()`: lower-case every character (kernel-evaluable
form of `String.toLower`). -/
def lowerStr (s : String) : String :=
  String.mk (s.data.map Char.toLower)

/-- `status_from_str` from src/foiatool/data.py: a two-entry dict lookup on
`status.lower()`.  A key miss raises `KeyError`; the raise is modelled as
`none`. -/
def status_from_str (status : String) : Option RequestStatus :=
  if lowerStr status = "closed" then some RequestStatus.CLOSED
  else if lowerStr status = "open" then some RequestStatus.PENDING
  else none

/-- One row of the `FOIARequest` table (src/foiatool/data.py). -/
structure FOIARequestRow where
  id : Nat
  date_submitted : Nat
  date_checked : Nat
  department : String
  scrape_source : String
  request_id : String
  request_status : Nat
  document_count : Nat
  deriving DecidableEq

/-- One row of the `DocumentDownload` table (src/foiatool/data.py).
`request` is the nullable foreign key (row id of the owning request). -/
structure DocumentDownloadRow where
  id : Nat
  request : Option Nat
  document_id : Option String
  date_downloaded : Nat
  is_bulk : Bool
  download_path : String
  checksum : String
  document_count : Nat
  deriving DecidableEq

/-- One row of the `WorkQueue` table (src/foiatool/data.py). -/
structure WorkQueueRow where
  id : Nat
  target_source : String
  task_type : Nat
  task_target_id : String
  document_name : Option String
  document_id : Option String
  deriving DecidableEq

/-- One row of the `ScrapeMetadata` table (src/foiatool/data.py). -/
structure ScrapeMetadataRow where
  id : Nat
  scrape_source : String
  last_scrape_date : Nat
  deriving DecidableEq

/-- The SQLite database state behind `DBSession`: the four tables, rows kept
in insertion order, plus a fresh-id supply (SQLite's per-table autoincrement
is abstracted into one counter; only freshness of ids matters here). -/
structure DBState where
  requests : List FOIARequestRow
  downloads : List DocumentDownloadRow
  workQueue : List WorkQueueRow
  scrapeMeta : List ScrapeMetadataRow
  nextId : Nat
  deriving DecidableEq

/-- The freshly created database (`DBSession.__init__` / `create_tables`):
all tables empty. -/
def emptyDB : DBState :=
  { requests := [], downloads := [], workQueue := [], scrapeMeta := [], nextId := 1 }

/-- The WHERE clause of `DBSession.get_request`:
`(scrape_source == s) & (request_id == r)`. -/
def reqKeyMatch (src rid : String) (r : FOIARequestRow) : Bool :=
  r.scrape_source == src && r.request_id == rid

/-- `DBSession.get_request` (src/foiatool/data.py): `get_or_none` over the
key filter — the first matching row, if any. -/
def get_request (s : DBState) (src rid : String) : Option FOIARequestRow :=
  s.requests.find? (reqKeyMatch src rid)

/-- The keyword arguments accepted by `DBSession.update_request` at its
call sites in data.py; `none` means the column is not in the UPDATE set. -/
structure RequestUpdate where
  department : Option String := none
  document_count : Option Nat := none
  date_checked : Option Nat := none
  request_status : Option Nat := none

/-- Apply an UPDATE's column set to one row. -/
def applyUpdate (r : FOIARequestRow) (u : RequestUpdate) : FOIARequestRow :=
  { r with
    department := u.department.getD r.department
    document_count := u.document_count.getD r.document_count
    date_checked := u.date_checked.getD r.date_checked
    request_status := u.request_status.getD r.request_status }

/-- `DBSession.update_request` (src/foiatool/data.py):
`FOIARequest.update(**kwargs).where(FOIARequest.id == req.id).execute()`. -/
def update_request (s : DBState) (reqId : Nat) (u : RequestUpdate) : DBState :=
  { s with requests := s.requests.map (fun r => if r.id = reqId then applyUpdate r u else r) }

/-- `DBSession.add_request` (src/foiatool/data.py): if `(src, rid)` exists,
update department / document_count / date_checked / request_status in place
and return the re-fetched row; else create a new row and return it. -/
def add_request (s : DBState) (src rid : String) (st : RequestStatus)
    (rdate : Nat) (dept : String) (dcount : Nat) (now : Nat) :
    Option FOIARequestRow × DBState :=
  match get_request s src rid with
  | some req =>
    let s2 := update_request s req.id
      { department := some dept, document_count := some dcount,
        date_checked := some now, request_status := some st.value }
    (get_request s2 src rid, s2)
  | none =>
    let row : FOIARequestRow :=
      { id := s.nextId, date_submitted := rdate, date_checked := now,
        department := dept, scrape_source := src, request_id := rid,
        request_status := st.value, document_count := dcount }
    (some row, { s with requests := s.requests ++ [row], nextId := s.nextId + 1 })

/-- The WHERE clause of `DBSession.get_task`: peewee renders
`document_id == None` as `IS NULL`, so the optional document id is part of
the key. -/
def taskKeyMatch (tt : TaskType) (src tid : String) (docId : Option String)
    (w : WorkQueueRow) : Bool :=
  w.target_source == src && w.task_type == tt.value &&
    w.task_target_id == tid && w.document_id == docId

/-- `DBSession.get_task` (src/foiatool/data.py). -/
def get_task (s : DBState) (tt : TaskType) (src tid : String)
    (docId : Option String) : List WorkQueueRow :=
  s.workQueue.filter (taskKeyMatch tt src tid docId)

/-- `DBSession.add_bulk_download_task` (src/foiatool/data.py): return
without inserting if `get_task` finds an existing item. -/
def add_bulk_download_task (s : DBState) (src rid : String) : DBState :=
  if (get_task s .BULK_DOWNLOAD src rid none).isEmpty then
    { s with
      workQueue := s.workQueue ++
        [{ id := s.nextId, target_source := src,
           task_type := TaskType.BULK_DOWNLOAD.value, task_target_id := rid,
           document_name := none, document_id := none }]
      nextId := s.nextId + 1 }
  else s

/-- `DBSession.add_download_task` (src/foiatool/data.py). -/
def add_download_task (s : DBState) (src rid doc_id doc_name : String) : DBState :=
  if (get_task s .DOWNLOAD src rid (some doc_id)).isEmpty then
    { s with
      workQueue := s.workQueue ++
        [{ id := s.nextId, target_source := src,
           task_type := TaskType.DOWNLOAD.value, task_target_id := rid,
           document_name := some doc_name, document_id := some doc_id }]
      nextId := s.nextId + 1 }
  else s

/-- `DBSession.add_update_task` (src/foiatool/data.py). -/
def add_update_task (s : DBState) (src rid : String) : DBState :=
  if (get_task s .UPDATE_METADATA src rid none).isEmpty then
    { s with
      workQueue := s.workQueue ++
        [{ id := s.nextId, target_source := src,
           task_type := TaskType.UPDATE_METADATA.value, task_target_id := rid,
           document_name := none, document_id := none }]
      nextId := s.nextId + 1 }
  else s

/-- `DBSession.mark_task_completed` (src/foiatool/data.py): DELETE by id. -/
def mark_task_completed (s : DBState) (taskId : Nat) : DBState :=
  { s with workQueue := s.workQueue.filter (fun w => w.id != taskId) }

/-- `DBSession.clear_tasks` (src/foiatool/data.py): DELETE all work items. -/
def clear_tasks (s : DBState) : DBState :=
  { s with workQueue := [] }

/-- `DBSession._add_download` (src/foiatool/data.py): create a
`DocumentDownload` row.  `get_doc_md5(path)` reads the downloaded file; the
hash is passed in as the caller-computed content fingerprint `checksum`. -/
def _add_download (s : DBState) (reqId : Option Nat) (path checksum : String)
    (is_bulk : Bool) (document_count : Nat) (document_id : Option String)
    (now : Nat) : DocumentDownloadRow × DBState :=
  let row : DocumentDownloadRow :=
    { id := s.nextId, request := reqId, document_id := document_id,
      date_downloaded := now, is_bulk := is_bulk, download_path := path,
      checksum := checksum, document_count := document_count }
  (row, { s with downloads := s.downloads ++ [row], nextId := s.nextId + 1 })

/-- `DBSession.mark_request_closed` (src/foiatool/data.py). -/
def mark_request_closed (s : DBState) (reqId now : Nat) : DBState :=
  update_request s reqId
    { date_checked := some now, request_status := some RequestStatus.CLOSED.value }

/-- `DBSession.mark_request_error` (src/foiatool/data.py). -/
def mark_request_error (s : DBState) (reqId now : Nat) : DBState :=
  update_request s reqId
    { date_checked := some now, request_status := some RequestStatus.ERROR.value }

/-- `DBSession.mark_request_pending` (src/foiatool/data.py). -/
def mark_request_pending (s : DBState) (reqId now : Nat) : DBState :=
  update_request s reqId
    { date_checked := some now, request_status := some RequestStatus.PENDING.value }

/-- `DBSession.get_last_scrape_date` (src/foiatool/data.py): a SELECT in a
try/except — a missing row (peewee `DoesNotExist`) yields `None`.  The
operation is a pure read, so it returns the state unchanged. -/
def get_last_scrape_date (s : DBState) (source : String) : Option Nat × DBState :=
  (match s.scrapeMeta.find? (fun m => m.scrape_source == source) with
   | some m => some m.last_scrape_date
   | none => none, s)

/-- `DBSession.update_scrape_date` (src/foiatool/data.py): upsert on the
`scrape_source` uniqueness constraint. -/
def update_scrape_date (s : DBState) (source : String) (now : Nat) : DBState :=
  match s.scrapeMeta.find? (fun m => m.scrape_source == source) with
  | some m =>
    { s with scrapeMeta := s.scrapeMeta.map (fun x =>
        if x.id = m.id then { x with last_scrape_date := now } else x) }
  | none =>
    { s with
      scrapeMeta := s.scrapeMeta ++
        [{ id := s.nextId, scrape_source := source, last_scrape_date := now }]
      nextId := s.nextId + 1 }

/-- `DBSession.get_open_requests` (src/foiatool/data.py). -/
def get_open_requests (s : DBState) : List FOIARequestRow :=
  s.requests.filter (fun r => r.request_status == RequestStatus.PENDING.value)

/-- `DBSession.get_closed_requests` (src/foiatool/data.py). -/
def get_closed_requests (s : DBState) : List FOIARequestRow :=
  s.requests.filter (fun r => r.request_status == RequestStatus.CLOSED.value)

/-- `DBSession.get_error_requests` (src/foiatool/data.py). -/
def get_error_requests (s : DBState) : List FOIARequestRow :=
  s.requests.filter (fun r => r.request_status == RequestStatus.ERROR.value)

/-- `DBSession.get_downloaded_requests` with no `before_date`
(src/foiatool/data.py): despite its name it returns `get_downloads(None)`,
i.e. every `DocumentDownload` row. -/
def get_downloaded_requests (s : DBState) : List DocumentDownloadRow :=
  s.downloads

/-- The `DatabaseStats` dataclass (src/foiatool/data.py). -/
structure DatabaseStats where
  total_request_count : Nat
  pending_request_count : Nat
  downloaded_request_count : Nat
  closed_request_count : Nat
  error_request_count : Nat
  last_scrape : Nat
  document_count : Nat
  deriving DecidableEq

/-- `DBSession.get_stats` (src/foiatool/data.py): the five aggregates plus
`last_scrape = ScrapeMetadata.get().last_scrape_date`.  With no filter,
peewee's `.get()` returns the first row of the table and raises
`DoesNotExist` on an empty one; `get_stats` has no try/except, so on a
database holding no scrape checkpoint the raise propagates out of
`get_stats` — modelled as `none`. -/
def get_stats (s : DBState) : Option DatabaseStats :=
  match s.scrapeMeta.head? with
  | none => none
  | some m =>
    some { total_request_count := s.requests.length
           pending_request_count := (get_open_requests s).length
           downloaded_request_count := (get_downloaded_requests s).length
           closed_request_count := (get_closed_requests s).length
           error_request_count := (get_error_requests s).length
           last_scrape := m.last_scrape_date
           document_count := ((get_downloaded_requests s).map (·.document_count)).sum }

/-- Database states reachable from a fresh database through the mutating
`DBSession` operations of src/foiatool/data.py. -/
inductive Reachable : DBState → Prop where
  | empty : Reachable emptyDB
  | addRequest {s : DBState} (src rid : String) (st : RequestStatus) (rdate : Nat)
      (dept : String) (dcount now : Nat) :
      Reachable s → Reachable (add_request s src rid st rdate dept dcount now).2
  | addBulkTask {s : DBState} (src rid : String) :
      Reachable s → Reachable (add_bulk_download_task s src rid)
  | addDlTask {s : DBState} (src rid doc_id doc_name : String) :
      Reachable s → Reachable (add_download_task s src rid doc_id doc_name)
  | addUpdTask {s : DBState} (src rid : String) :
      Reachable s → Reachable (add_update_task s src rid)
  | markClosed {s : DBState} (reqId now : Nat) :
      Reachable s → Reachable (mark_request_closed s reqId now)
  | markError {s : DBState} (reqId now : Nat) :
      Reachable s → Reachable (mark_request_error s reqId now)
  | markPending {s : DBState} (reqId now : Nat) :
      Reachable s → Reachable (mark_request_pending s reqId now)
  | taskDone {s : DBState} (taskId : Nat) :
      Reachable s → Reachable (mark_task_completed s taskId)
  | clearQ {s : DBState} : Reachable s → Reachable (clear_tasks s)
  | addDl {s : DBState} (reqId : Option Nat) (path checksum : String) (is_bulk : Bool)
      (document_count : Nat) (document_id : Option String) (now : Nat) :
      Reachable s →
      Reachable (_add_download s reqId path checksum is_bulk document_count document_id now).2
  | scrapeDate {s : DBState} (source : String) (now : Nat) :
      Reachable s → Reachable (update_scrape_date s source now)

/-! ### Helper lemmas about the store operations -/

/-- A function that rewrites rows without touching the columns a filter
reads leaves the filter's output rows pointwise transformed. -/
theorem filter_map_key {α : Type} (l : List α) (f : α → α) (p : α → Bool)
    (h : ∀ x, p (f x) = p x) : (l.map f).filter p = (l.filter p).map f := by
  induction l with
  | nil => rfl
  | cons x xs ih =>
    by_cases hx : p x = true
    · simp [List.filter_cons, h, hx, ih]
    · simp only [Bool.not_eq_true] at hx
      simp [List.filter_cons, h, hx, ih]

/-- `find?` analogue of `filter_map_key`. -/
theorem find?_map_key {α : Type} (l : List α) (f : α → α) (p : α → Bool)
    (h : ∀ x, p (f x) = p x) : (l.map f).find? p = (l.find? p).map f := by
  have hp : (p ∘ f) = p := funext h
  rw [List.find?_map, hp]

/-- `applyUpdate` never touches the `(scrape_source, request_id)` key. -/
theorem reqKeyMatch_applyUpdate (src rid : String) (r : FOIARequestRow)
    (u : RequestUpdate) : reqKeyMatch src rid (applyUpdate r u) = reqKeyMatch src rid r := rfl

/-- An `UPDATE ... WHERE id = _` leaves every table other than `requests`
unchanged, and preserves the request-key filter. -/
theorem update_request_workQueue (s : DBState) (reqId : Nat) (u : RequestUpdate) :
    (update_request s reqId u).workQueue = s.workQueue := rfl

/-- `add_request` never touches the work queue. -/
theorem add_request_workQueue (s : DBState) (src rid : String) (st : RequestStatus)
    (rdate : Nat) (dept : String) (dcount now : Nat) :
    (add_request s src rid st rdate dept dcount now).2.workQueue = s.workQueue := by
  unfold add_request
  cases get_request s src rid <;> rfl

/-! ### Work-queue dedup invariant (claim C1) -/

/-- At most one `WorkQueue` row exists per
`(target_source, task_type, task_target_id, document_id)` key. -/
def TaskUniqueQ (wq : List WorkQueueRow) : Prop :=
  ∀ (tt : TaskType) (src tid : String) (docId : Option String),
    (wq.filter (taskKeyMatch tt src tid docId)).length ≤ 1

/-- Appending a row whose key currently has no match preserves dedup. -/
theorem taskUniqueQ_append (wq : List WorkQueueRow) (row : WorkQueueRow)
    (hg : ∀ (tt : TaskType) (src tid : String) (docId : Option String),
      taskKeyMatch tt src tid docId row = true →
      wq.filter (taskKeyMatch tt src tid docId) = [])
    (hu : TaskUniqueQ wq) : TaskUniqueQ (wq ++ [row]) := by
  intro tt src tid docId
  rw [List.filter_append]
  by_cases hp : taskKeyMatch tt src tid docId row = true
  · rw [hg tt src tid docId hp]
    simp [List.filter_cons, hp]
  · simp only [Bool.not_eq_true] at hp
    simp only [List.filter_cons, hp, List.filter_nil]
    simpa using hu tt src tid docId

/-- The row inserted by `add_bulk_download_task` matches a key only if that
key is the one the guard just looked up. -/
theorem bulk_row_key (s : DBState) (src rid : String) (tt : TaskType)
    (src' tid' : String) (docId' : Option String)
    (h : taskKeyMatch tt src' tid' docId'
      { id := s.nextId, target_source := src,
        task_type := TaskType.BULK_DOWNLOAD.value, task_target_id := rid,
        document_name := none, document_id := none } = true) :
    tt = .BULK_DOWNLOAD ∧ src' = src ∧ tid' = rid ∧ docId' = none := by
  simp only [taskKeyMatch, Bool.and_eq_true, beq_iff_eq] at h
  obtain ⟨⟨⟨h1, h2⟩, h3⟩, h4⟩ := h
  refine ⟨?_, h1.symm, h3.symm, h4.symm⟩
  cases tt <;> simp_all [TaskType.value]

/-- Same key-inversion fact for the row inserted by `add_download_task`. -/
theorem dl_row_key (s : DBState) (src rid doc_id doc_name : String) (tt : TaskType)
    (src' tid' : String) (docId' : Option String)
    (h : taskKeyMatch tt src' tid' docId'
      { id := s.nextId, target_source := src,
        task_type := TaskType.DOWNLOAD.value, task_target_id := rid,
        document_name := some doc_name, document_id := some doc_id } = true) :
    tt = .DOWNLOAD ∧ src' = src ∧ tid' = rid ∧ docId' = some doc_id := by
  simp only [taskKeyMatch, Bool.and_eq_true, beq_iff_eq] at h
  obtain ⟨⟨⟨h1, h2⟩, h3⟩, h4⟩ := h
  refine ⟨?_, h1.symm, h3.symm, h4.symm⟩
  cases tt <;> simp_all [TaskType.value]

/-- Same key-inversion fact for the row inserted by `add_update_task`. -/
theorem upd_row_key (s : DBState) (src rid : String) (tt : TaskType)
    (src' tid' : String) (docId' : Option String)
    (h : taskKeyMatch tt src' tid' docId'
      { id := s.nextId, target_source := src,
        task_type := TaskType.UPDATE_METADATA.value, task_target_id := rid,
        document_name := none, document_id := none } = true) :
    tt = .UPDATE_METADATA ∧ src' = src ∧ tid' = rid ∧ docId' = none := by
  simp only [taskKeyMatch, Bool.and_eq_true, beq_iff_eq] at h
  obtain ⟨⟨⟨h1, h2⟩, h3⟩, h4⟩ := h
  refine ⟨?_, h1.symm, h3.symm, h4.symm⟩
  cases tt <;> simp_all [TaskType.value]

/-- Every reachable database state satisfies the work-queue dedup
invariant. -/
theorem taskUnique_reachable (s : DBState) (h : Reachable s) : TaskUniqueQ s.workQueue := by
  induction h with
  | empty => intro tt src tid docId; simp [emptyDB]
  | addRequest src rid st rdate dept dcount now _ ih =>
    rwa [add_request_workQueue]
  | addBulkTask src rid hr ih =>
    rename_i s'
    unfold add_bulk_download_task
    by_cases hg : (get_task s' .BULK_DOWNLOAD src rid none).isEmpty = true
    · rw [if_pos hg]
      refine taskUniqueQ_append _ _ ?_ ih
      intro tt src' tid' docId' hkey
      obtain ⟨h1, h2, h3, h4⟩ := bulk_row_key _ src rid tt src' tid' docId' hkey
      subst h1; subst h2; subst h3; subst h4
      exact List.isEmpty_iff.1 hg
    · rw [if_neg hg]; exact ih
  | addDlTask src rid doc_id doc_name hr ih =>
    rename_i s'
    unfold add_download_task
    by_cases hg : (get_task s' .DOWNLOAD src rid (some doc_id)).isEmpty = true
    · rw [if_pos hg]
      refine taskUniqueQ_append _ _ ?_ ih
      intro tt src' tid' docId' hkey
      obtain ⟨h1, h2, h3, h4⟩ := dl_row_key _ src rid doc_id doc_name tt src' tid' docId' hkey
      subst h1; subst h2; subst h3; subst h4
      exact List.isEmpty_iff.1 hg
    · rw [if_neg hg]; exact ih
  | addUpdTask src rid hr ih =>
    rename_i s'
    unfold add_update_task
    by_cases hg : (get_task s' .UPDATE_METADATA src rid none).isEmpty = true
    · rw [if_pos hg]
      refine taskUniqueQ_append _ _ ?_ ih
      intro tt src' tid' docId' hkey
      obtain ⟨h1, h2, h3, h4⟩ := upd_row_key _ src rid tt src' tid' docId' hkey
      subst h1; subst h2; subst h3; subst h4
      exact List.isEmpty_iff.1 hg
    · rw [if_neg hg]; exact ih
  | markClosed reqId now _ ih => exact ih
  | markError reqId now _ ih => exact ih
  | markPending reqId now _ ih => exact ih
  | taskDone taskId hr ih =>
    rename_i s'
    intro tt src tid docId
    have hq : (mark_task_completed s' taskId).workQueue
        = s'.workQueue.filter (fun w => w.id != taskId) := rfl
    rw [hq]
    exact le_trans
      (List.Sublist.length_le
        (List.Sublist.filter _ (List.filter_sublist s'.workQueue)))
      (ih tt src tid docId)
  | clearQ _ ih => intro tt src tid docId; simp [clear_tasks]
  | addDl reqId path checksum is_bulk document_count document_id now _ ih => exact ih
  | scrapeDate source now hr ih =>
    rename_i s'
    unfold update_scrape_date
    cases hf : s'.scrapeMeta.find? (fun m => m.scrape_source == source) <;>
      simp only [hf] <;> exact ih

/-- A second identical `add_bulk_download_task` call is a no-op. -/
theorem add_bulk_download_task_idem (s : DBState) (src rid : String) :
    add_bulk_download_task (add_bulk_download_task s src rid) src rid
      = add_bulk_download_task s src rid := by
  by_cases h : (get_task s .BULK_DOWNLOAD src rid none).isEmpty = true
  · have hrow : taskKeyMatch .BULK_DOWNLOAD src rid none
        { id := s.nextId, target_source := src,
          task_type := TaskType.BULK_DOWNLOAD.value, task_target_id := rid,
          document_name := none, document_id := none } = true := by
      simp [taskKeyMatch]
    have hs1 : add_bulk_download_task s src rid
        = { s with
            workQueue := s.workQueue ++
              [{ id := s.nextId, target_source := src,
                 task_type := TaskType.BULK_DOWNLOAD.value, task_target_id := rid,
                 document_name := none, document_id := none }]
            nextId := s.nextId + 1 } := by
      rw [add_bulk_download_task, if_pos h]
    have h2 : (get_task (add_bulk_download_task s src rid) .BULK_DOWNLOAD src rid none).isEmpty
        = false := by
      rw [hs1]
      simp only [get_task, List.filter_append, List.filter_cons, hrow, if_pos]
      simp
    conv_lhs => rw [add_bulk_download_task]
    rw [if_neg (by simp [h2])]
  · have hs1 : add_bulk_download_task s src rid = s := by
      rw [add_bulk_download_task, if_neg h]
    rw [hs1]
    exact hs1

/-- A second identical `add_download_task` call is a no-op. -/
theorem add_download_task_idem (s : DBState) (src rid doc_id doc_name : String) :
    add_download_task (add_download_task s src rid doc_id doc_name) src rid doc_id doc_name
      = add_download_task s src rid doc_id doc_name := by
  by_cases h : (get_task s .DOWNLOAD src rid (some doc_id)).isEmpty = true
  · have hrow : taskKeyMatch .DOWNLOAD src rid (some doc_id)
        { id := s.nextId, target_source := src,
          task_type := TaskType.DOWNLOAD.value, task_target_id := rid,
          document_name := some doc_name, document_id := some doc_id } = true := by
      simp [taskKeyMatch]
    have hs1 : add_download_task s src rid doc_id doc_name
        = { s with
            workQueue := s.workQueue ++
              [{ id := s.nextId, target_source := src,
                 task_type := TaskType.DOWNLOAD.value, task_target_id := rid,
                 document_name := some doc_name, document_id := some doc_id }]
            nextId := s.nextId + 1 } := by
      rw [add_download_task, if_pos h]
    have h2 : (get_task (add_download_task s src rid doc_id doc_name) .DOWNLOAD src rid
        (some doc_id)).isEmpty = false := by
      rw [hs1]
      simp only [get_task, List.filter_append, List.filter_cons, hrow, if_pos]
      simp
    conv_lhs => rw [add_download_task]
    rw [if_neg (by simp [h2])]
  · have hs1 : add_download_task s src rid doc_id doc_name = s := by
      rw [add_download_task, if_neg h]
    rw [hs1]
    exact hs1

/-- A second identical `add_update_task` call is a no-op. -/
theorem add_update_task_idem (s : DBState) (src rid : String) :
    add_update_task (add_update_task s src rid) src rid
      = add_update_task s src rid := by
  by_cases h : (get_task s .UPDATE_METADATA src rid none).isEmpty = true
  · have hrow : taskKeyMatch .UPDATE_METADATA src rid none
        { id := s.nextId, target_source := src,
          task_type := TaskType.UPDATE_METADATA.value, task_target_id := rid,
          document_name := none, document_id := none } = true := by
      simp [taskKeyMatch]
    have hs1 : add_update_task s src rid
        = { s with
            workQueue := s.workQueue ++
              [{ id := s.nextId, target_source := src,
                 task_type := TaskType.UPDATE_METADATA.value, task_target_id := rid,
                 document_name := none, document_id := none }]
            nextId := s.nextId + 1 } := by
      rw [add_update_task, if_pos h]
    have h2 : (get_task (add_update_task s src rid) .UPDATE_METADATA src rid none).isEmpty
        = false := by
      rw [hs1]
      simp only [get_task, List.filter_append, List.filter_cons, hrow, if_pos]
      simp
    conv_lhs => rw [add_update_task]
    rw [if_neg (by simp [h2])]
  · have hs1 : add_update_task s src rid = s := by
      rw [add_update_task, if_neg h]
    rw [hs1]
    exact hs1

/-- Claim C1: enqueue is idempotent — calling `add_bulk_download_task`,
`add_download_task` or `add_update_task` a second time with identical
parameters inserts nothing and leaves the database state unchanged, and in
every reachable database state at most one `WorkQueue` row exists per
`(target_source, task_type, task_target_id, document_id)` key. -/
theorem claim_C1_idempotent_enqueue :
    (∀ (s : DBState) (src rid : String),
      add_bulk_download_task (add_bulk_download_task s src rid) src rid
        = add_bulk_download_task s src rid)
    ∧ (∀ (s : DBState) (src rid doc_id doc_name : String),
      add_download_task (add_download_task s src rid doc_id doc_name) src rid doc_id doc_name
        = add_download_task s src rid doc_id doc_name)
    ∧ (∀ (s : DBState) (src rid : String),
      add_update_task (add_update_task s src rid) src rid = add_update_task s src rid)
    ∧ (∀ s : DBState, Reachable s →
        ∀ (tt : TaskType) (src tid : String) (docId : Option String),
          (get_task s tt src tid docId).length ≤ 1) :=
  ⟨add_bulk_download_task_idem, add_download_task_idem, add_update_task_idem,
   fun s h tt src tid docId => taskUnique_reachable s h tt src tid docId⟩

/-- Witness for claim C1 at a concrete state: enqueueing the same bulk task
twice on a fresh database equals enqueueing it once, and the resulting
reachable state has at most one row for that key. -/
theorem claim_C1_witness :
    add_bulk_download_task (add_bulk_download_task emptyDB "acme.gov" "R-100") "acme.gov" "R-100"
      = add_bulk_download_task emptyDB "acme.gov" "R-100"
    ∧ (get_task (add_bulk_download_task emptyDB "acme.gov" "R-100")
        .BULK_DOWNLOAD "acme.gov" "R-100" none).length ≤ 1 :=
  ⟨claim_C1_idempotent_enqueue.1 emptyDB "acme.gov" "R-100",
   claim_C1_idempotent_enqueue.2.2.2 _
     (Reachable.addBulkTask "acme.gov" "R-100" Reachable.empty)
     .BULK_DOWNLOAD "acme.gov" "R-100" none⟩

/-! ### Request uniqueness invariant (claim C2) -/

/-- At most one `FOIARequest` row exists per `(scrape_source, request_id)`
key — the UNIQUE constraint of `FOIARequest.Meta`. -/
def ReqUniqueL (l : List FOIARequestRow) : Prop :=
  ∀ src rid : String, (l.filter (reqKeyMatch src rid)).length ≤ 1

/-- An id-targeted UPDATE neither adds nor removes rows matching any
request key. -/
theorem length_filter_update (l : List FOIARequestRow) (reqId : Nat)
    (u : RequestUpdate) (src rid : String) :
    ((l.map (fun r => if r.id = reqId then applyUpdate r u else r)).filter
        (reqKeyMatch src rid)).length
      = (l.filter (reqKeyMatch src rid)).length := by
  rw [filter_map_key, List.length_map]
  intro x
  by_cases hx : x.id = reqId <;> simp [hx, reqKeyMatch_applyUpdate]

/-- Appending a request row whose key has no current match preserves the
uniqueness invariant. -/
theorem reqUniqueL_append (l : List FOIARequestRow) (row : FOIARequestRow)
    (hg : ∀ src rid : String, reqKeyMatch src rid row = true →
      l.filter (reqKeyMatch src rid) = [])
    (hu : ReqUniqueL l) : ReqUniqueL (l ++ [row]) := by
  intro src rid
  rw [List.filter_append]
  by_cases hp : reqKeyMatch src rid row = true
  · rw [hg src rid hp]
    simp [List.filter_cons, hp]
  · simp only [Bool.not_eq_true] at hp
    simp only [List.filter_cons, hp, List.filter_nil]
    simpa using hu src rid

/-- The three task-enqueue operations never touch the `requests` table. -/
theorem add_bulk_download_task_requests (s : DBState) (src rid : String) :
    (add_bulk_download_task s src rid).requests = s.requests := by
  unfold add_bulk_download_task; split <;> rfl

/-- `add_download_task` never touches the `requests` table. -/
theorem add_download_task_requests (s : DBState) (src rid doc_id doc_name : String) :
    (add_download_task s src rid doc_id doc_name).requests = s.requests := by
  unfold add_download_task; split <;> rfl

/-- `add_update_task` never touches the `requests` table. -/
theorem add_update_task_requests (s : DBState) (src rid : String) :
    (add_update_task s src rid).requests = s.requests := by
  unfold add_update_task; split <;> rfl

/-- `update_scrape_date` never touches the `requests` table. -/
theorem update_scrape_date_requests (s : DBState) (source : String) (now : Nat) :
    (update_scrape_date s source now).requests = s.requests := by
  unfold update_scrape_date; split <;> rfl

/-- Every reachable database state satisfies the request-key uniqueness
invariant. -/
theorem reqUnique_reachable (s : DBState) (h : Reachable s) : ReqUniqueL s.requests := by
  induction h with
  | empty => intro src rid; simp [emptyDB]
  | addRequest src rid st rdate dept dcount now hr ih =>
    rename_i s'
    unfold add_request
    cases hfind : get_request s' src rid with
    | some req =>
      intro src' rid'
      simpa [update_request] using
        (length_filter_update s'.requests req.id _ src' rid').trans_le (ih src' rid')
    | none =>
      refine reqUniqueL_append s'.requests _ ?_ ih
      intro src' rid' hkey
      simp only [reqKeyMatch, Bool.and_eq_true, beq_iff_eq] at hkey
      obtain ⟨h1, h2⟩ := hkey
      subst h1; subst h2
      rw [List.filter_eq_nil_iff]
      intro r hr2
      have := List.find?_eq_none.1 hfind r hr2
      simpa using this
  | addBulkTask src rid hr ih =>
    rename_i s'
    rw [show (add_bulk_download_task s' src rid).requests = s'.requests from
      add_bulk_download_task_requests s' src rid]
    exact ih
  | addDlTask src rid doc_id doc_name hr ih =>
    rename_i s'
    rw [show (add_download_task s' src rid doc_id doc_name).requests = s'.requests from
      add_download_task_requests s' src rid doc_id doc_name]
    exact ih
  | addUpdTask src rid hr ih =>
    rename_i s'
    rw [show (add_update_task s' src rid).requests = s'.requests from
      add_update_task_requests s' src rid]
    exact ih
  | markClosed reqId now hr ih =>
    rename_i s'
    intro src rid
    simpa [mark_request_closed, update_request] using
      (length_filter_update s'.requests reqId _ src rid).trans_le (ih src rid)
  | markError reqId now hr ih =>
    rename_i s'
    intro src rid
    simpa [mark_request_error, update_request] using
      (length_filter_update s'.requests reqId _ src rid).trans_le (ih src rid)
  | markPending reqId now hr ih =>
    rename_i s'
    intro src rid
    simpa [mark_request_pending, update_request] using
      (length_filter_update s'.requests reqId _ src rid).trans_le (ih src rid)
  | taskDone taskId hr ih => exact ih
  | clearQ hr ih => exact ih
  | addDl reqId path checksum is_bulk document_count document_id now hr ih => exact ih
  | scrapeDate source now hr ih =>
    rename_i s'
    rw [show (update_scrape_date s' source now).requests = s'.requests from
      update_scrape_date_requests s' source now]
    exact ih

/-- Claim C2: at most one `FOIARequest` row per `(scrape_source,
request_id)` in every reachable state; on an existing pair `add_request`
updates department, document_count, request_status and date_checked in
place, returning the existing row without inserting; on an unseen pair it
inserts exactly one new row. -/
theorem claim_C2_no_duplicate_requests :
    (∀ s : DBState, Reachable s →
      ∀ src rid : String, (s.requests.filter (reqKeyMatch src rid)).length ≤ 1)
    ∧ (∀ (s : DBState) (src rid : String) (st : RequestStatus) (rdate : Nat)
        (dept : String) (dcount now : Nat) (req : FOIARequestRow),
        get_request s src rid = some req →
        (add_request s src rid st rdate dept dcount now).2.requests.length
            = s.requests.length
        ∧ (add_request s src rid st rdate dept dcount now).1
            = some { req with
                     department := dept
                     document_count := dcount
                     date_checked := now
                     request_status := st.value })
    ∧ (∀ (s : DBState) (src rid : String) (st : RequestStatus) (rdate : Nat)
        (dept : String) (dcount now : Nat),
        get_request s src rid = none →
        ∃ row : FOIARequestRow,
          (add_request s src rid st rdate dept dcount now).2.requests
              = s.requests ++ [row]
          ∧ (add_request s src rid st rdate dept dcount now).1 = some row
          ∧ row.scrape_source = src ∧ row.request_id = rid
          ∧ row.department = dept ∧ row.document_count = dcount
          ∧ row.request_status = st.value ∧ row.date_submitted = rdate
          ∧ row.date_checked = now) := by
  refine ⟨fun s h => reqUnique_reachable s h, ?_, ?_⟩
  · intro s src rid st rdate dept dcount now req hreq
    constructor
    · simp only [add_request, hreq, update_request, List.length_map]
    · simp only [add_request, hreq]
      show get_request (update_request s req.id _) src rid = _
      unfold get_request update_request
      rw [find?_map_key]
      · show (s.requests.find? (reqKeyMatch src rid)).map _ = _
        rw [show s.requests.find? (reqKeyMatch src rid) = some req from hreq]
        simp [applyUpdate]
      · intro x
        by_cases hx : x.id = req.id <;> simp [hx, reqKeyMatch_applyUpdate]
  · intro s src rid st rdate dept dcount now hnone
    simp only [add_request, hnone]
    exact ⟨_, rfl, rfl, rfl, rfl, rfl, rfl, rfl, rfl, rfl⟩

/-- Witness for claim C2: re-adding `("src", "r1")` on a one-row database
updates in place (no second row) and returns the updated row; the state is
reachable and has at most one row for the key. -/
theorem claim_C2_witness :
    ((add_request (add_request emptyDB "src" "r1" .PENDING 3 "d" 2 5).2
        "src" "r1" .CLOSED 9 "d2" 7 11).2.requests.length
      = (add_request emptyDB "src" "r1" .PENDING 3 "d" 2 5).2.requests.length)
    ∧ ((add_request (add_request emptyDB "src" "r1" .PENDING 3 "d" 2 5).2
        "src" "r1" .CLOSED 9 "d2" 7 11).1
      = some { id := 1, date_submitted := 3, date_checked := 11, department := "d2",
               scrape_source := "src", request_id := "r1", request_status := 2,
               document_count := 7 })
    ∧ (((add_request emptyDB "src" "r1" .PENDING 3 "d" 2 5).2.requests.filter
        (reqKeyMatch "src" "r1")).length ≤ 1) := by
  have h := claim_C2_no_duplicate_requests
  have hfound : get_request (add_request emptyDB "src" "r1" .PENDING 3 "d" 2 5).2 "src" "r1"
      = some { id := 1, date_submitted := 3, date_checked := 5, department := "d",
               scrape_source := "src", request_id := "r1", request_status := 1,
               document_count := 2 } := by decide
  obtain ⟨hlen, hret⟩ := h.2.1 _ "src" "r1" .CLOSED 9 "d2" 7 11 _ hfound
  exact ⟨hlen, hret,
    h.1 _ (Reachable.addRequest "src" "r1" .PENDING 3 "d" 2 5 Reachable.empty) "src" "r1"⟩

/-! ### Frame property of the status markers (claim C9) -/

/-- Frame statement for a status-marker operation: everything except the
targeted row's `request_status` and `date_checked` is untouched. -/
def markerFrame (f : DBState → Nat → Nat → DBState) (stVal : Nat) : Prop :=
  ∀ (s : DBState) (reqId now : Nat),
    (f s reqId now).downloads = s.downloads
    ∧ (f s reqId now).workQueue = s.workQueue
    ∧ (f s reqId now).scrapeMeta = s.scrapeMeta
    ∧ (f s reqId now).requests.length = s.requests.length
    ∧ (∀ (i : Nat) (r : FOIARequestRow), s.requests[i]? = some r → r.id ≠ reqId →
        (f s reqId now).requests[i]? = some r)
    ∧ (∀ (i : Nat) (r : FOIARequestRow), s.requests[i]? = some r → r.id = reqId →
        (f s reqId now).requests[i]? = some { r with request_status := stVal, date_checked := now })

/-- `update_request` with only `date_checked`/`request_status` in the
UPDATE set satisfies the marker frame property. -/
theorem markerFrame_update (stVal : Nat) :
    markerFrame
      (fun s reqId now => update_request s reqId
        { date_checked := some now, request_status := some stVal }) stVal := by
  intro s reqId now
  refine ⟨rfl, rfl, rfl, by simp [update_request], ?_, ?_⟩
  · intro i r hi hne
    show (s.requests.map _)[i]? = _
    rw [List.getElem?_map, hi]
    simp [hne]
  · intro i r hi heq
    show (s.requests.map _)[i]? = _
    rw [List.getElem?_map, hi]
    simp only [Option.map_some']
    rw [if_pos heq]
    rfl

/-- Claim C9: `mark_request_closed`, `mark_request_error` and
`mark_request_pending` modify only the targeted row's `request_status` and
`date_checked`; the row's other columns, every other request row, and the
other three tables are unchanged. -/
theorem claim_C9_marker_frame :
    markerFrame mark_request_closed RequestStatus.CLOSED.value
    ∧ markerFrame mark_request_error RequestStatus.ERROR.value
    ∧ markerFrame mark_request_pending RequestStatus.PENDING.value :=
  ⟨markerFrame_update _, markerFrame_update _, markerFrame_update _⟩

/-- Witness for claim C9 on a concrete one-row database: marking row id 1
closed rewrites exactly its status and check date, while a marker aimed at
an id that the row does not have leaves the row as it was. -/
theorem claim_C9_witness :
    (mark_request_closed (add_request emptyDB "s" "r1" .PENDING 0 "d" 1 0).2 1 7).requests[0]?
      = some { id := 1, date_submitted := 0, date_checked := 7, department := "d",
               scrape_source := "s", request_id := "r1", request_status := 2,
               document_count := 1 }
    ∧ (mark_request_error (add_request emptyDB "s" "r1" .PENDING 0 "d" 1 0).2 99 7).requests[0]?
      = some { id := 1, date_submitted := 0, date_checked := 0, department := "d",
               scrape_source := "s", request_id := "r1", request_status := 1,
               document_count := 1 } := by
  have h := claim_C9_marker_frame
  refine ⟨?_, ?_⟩
  · exact (h.1 (add_request emptyDB "s" "r1" .PENDING 0 "d" 1 0).2 1 7).2.2.2.2.2
      0 { id := 1, date_submitted := 0, date_checked := 0, department := "d",
          scrape_source := "s", request_id := "r1", request_status := 1,
          document_count := 1 } (by decide) rfl
  · exact (h.2.1 (add_request emptyDB "s" "r1" .PENDING 0 "d" 1 0).2 99 7).2.2.2.2.1
      0 { id := 1, date_submitted := 0, date_checked := 0, department := "d",
          scrape_source := "s", request_id := "r1", request_status := 1,
          document_count := 1 } (by decide) (by decide)

/-! ### Missing-checkpoint lookup (claim C10) -/

/-- Claim C10: for a source with no `ScrapeMetadata` row,
`get_last_scrape_date` returns `None` (the `except` path) instead of
raising, and leaves the database state unchanged. -/
theorem claim_C10_missing_checkpoint (s : DBState) (source : String)
    (h : ∀ m ∈ s.scrapeMeta, m.scrape_source ≠ source) :
    get_last_scrape_date s source = (none, s) := by
  unfold get_last_scrape_date
  have hf : s.scrapeMeta.find? (fun m => m.scrape_source == source) = none := by
    rw [List.find?_eq_none]
    intro m hm
    simp [h m hm]
  rw [hf]

/-- Witness for claim C10: a database holding a checkpoint only for
`"other"` yields `None` for `"missing"`, state unchanged. -/
theorem claim_C10_witness :
    get_last_scrape_date (update_scrape_date emptyDB "other" 5) "missing"
      = (none, update_scrape_date emptyDB "other" 5) :=
  claim_C10_missing_checkpoint (update_scrape_date emptyDB "other" 5) "missing"
    (by decide)

/-! ### Status-string mapping (claim C8) -/

/-- Claim C8: `status_from_str` maps any casing of "closed" to CLOSED and
of "open" to PENDING, and raises (`KeyError`, modelled as `none`) on every
other input instead of silently defaulting. -/
theorem claim_C8_status_mapping :
    (∀ s : String, lowerStr s = "closed" → status_from_str s = some RequestStatus.CLOSED)
    ∧ (∀ s : String, lowerStr s = "open" → status_from_str s = some RequestStatus.PENDING)
    ∧ (∀ s : String, lowerStr s ≠ "closed" → lowerStr s ≠ "open" → status_from_str s = none) := by
  refine ⟨?_, ?_, ?_⟩
  · intro s h
    simp [status_from_str, h]
  · intro s h
    rw [status_from_str, h]
    simp
  · intro s h1 h2
    simp [status_from_str, h1, h2]

/-- Witness for claim C8 at concrete inputs of each kind. -/
theorem claim_C8_witness :
    status_from_str "CLOSED" = some RequestStatus.CLOSED
    ∧ status_from_str "Open" = some RequestStatus.PENDING
    ∧ status_from_str "in progress" = none :=
  ⟨claim_C8_status_mapping.1 "CLOSED" (by decide),
   claim_C8_status_mapping.2.1 "Open" (by decide),
   claim_C8_status_mapping.2.2 "in progress" (by decide) (by decide)⟩

/-! ### Stats consistency (claim C6) -/

/-- Every request row carries one of the four enum status values. -/
def StatusesValid (l : List FOIARequestRow) : Prop :=
  ∀ r ∈ l, r.request_status = 1 ∨ r.request_status = 2
    ∨ r.request_status = 3 ∨ r.request_status = 4

/-- Each enum member's stored value is one of 1..4. -/
theorem status_value_valid (st : RequestStatus) :
    st.value = 1 ∨ st.value = 2 ∨ st.value = 3 ∨ st.value = 4 := by
  cases st <;> simp [RequestStatus.value]

/-- Rewriting rows through an id-targeted UPDATE whose status column is a
valid enum value preserves status validity. -/
theorem statusesValid_update (l : List FOIARequestRow) (reqId : Nat)
    (u : RequestUpdate) (hval : ∀ v, u.request_status = some v →
      v = 1 ∨ v = 2 ∨ v = 3 ∨ v = 4)
    (h : StatusesValid l) :
    StatusesValid (l.map (fun r => if r.id = reqId then applyUpdate r u else r)) := by
  intro r' hr'
  obtain ⟨r, hr, hmap⟩ := List.mem_map.1 hr'
  subst hmap
  by_cases hid : r.id = reqId
  · rw [if_pos hid]
    show (applyUpdate r u).request_status = 1 ∨ _ ∨ _ ∨ _
    cases hu : u.request_status with
    | none => simpa [applyUpdate, hu] using h r hr
    | some v => simpa [applyUpdate, hu] using hval v hu
  · rw [if_neg hid]
    exact h r hr

/-- Every reachable database state has only valid status values in its
requests table. -/
theorem statusesValid_reachable (s : DBState) (h : Reachable s) :
    StatusesValid s.requests := by
  induction h with
  | empty => intro r hr; cases hr
  | addRequest src rid st rdate dept dcount now hr ih =>
    rename_i s'
    unfold add_request
    cases hfind : get_request s' src rid with
    | some req =>
      exact statusesValid_update s'.requests req.id _
        (fun v hv => by
          simp only [Option.some_inj] at hv
          exact hv ▸ status_value_valid st) ih
    | none =>
      intro r hr2
      rcases List.mem_append.1 hr2 with hold | hnew
      · exact ih r hold
      · rcases List.mem_singleton.1 hnew with rfl
        exact status_value_valid st
  | addBulkTask src rid hr ih =>
    rename_i s'
    rw [add_bulk_download_task_requests]
    exact ih
  | addDlTask src rid doc_id doc_name hr ih =>
    rename_i s'
    rw [add_download_task_requests]
    exact ih
  | addUpdTask src rid hr ih =>
    rename_i s'
    rw [add_update_task_requests]
    exact ih
  | markClosed reqId now hr ih =>
    exact statusesValid_update _ reqId _
      (fun v hv => by
        simp only [Option.some_inj] at hv
        exact hv ▸ status_value_valid RequestStatus.CLOSED) ih
  | markError reqId now hr ih =>
    exact statusesValid_update _ reqId _
      (fun v hv => by
        simp only [Option.some_inj] at hv
        exact hv ▸ status_value_valid RequestStatus.ERROR) ih
  | markPending reqId now hr ih =>
    exact statusesValid_update _ reqId _
      (fun v hv => by
        simp only [Option.some_inj] at hv
        exact hv ▸ status_value_valid RequestStatus.PENDING) ih
  | taskDone taskId hr ih => exact ih
  | clearQ hr ih => exact ih
  | addDl reqId path checksum is_bulk document_count document_id now hr ih => exact ih
  | scrapeDate source now hr ih =>
    rename_i s'
    rw [update_scrape_date_requests]
    exact ih

/-- A list of rows whose statuses all lie in 1..4 is partitioned exactly by
the four status filters. -/
theorem length_eq_status_partition (l : List FOIARequestRow) (h : StatusesValid l) :
    l.length = (l.filter (fun r => r.request_status == 1)).length
      + (l.filter (fun r => r.request_status == 2)).length
      + (l.filter (fun r => r.request_status == 4)).length
      + (l.filter (fun r => r.request_status == 3)).length := by
  induction l with
  | nil => rfl
  | cons r rest ih =>
    have hr := h r (List.mem_cons_self r rest)
    have hrest : StatusesValid rest := fun x hx => h x (List.mem_cons_of_mem r hx)
    have ihr := ih hrest
    rcases hr with h1 | h1 | h1 | h1 <;>
      simp only [List.filter_cons, h1, List.length_cons] <;> norm_num <;> omega

/-- The concrete reachable state for the claim C6 counterexample: one
request discovered with status DOWNLOADED, no download rows, and a scrape
checkpoint — so that `ScrapeMetadata.get()` inside `get_stats` succeeds
and the stats are actually returned. -/
def c6CexState : DBState :=
  update_scrape_date (add_request emptyDB "src" "r1" .DOWNLOADED 0 "d" 5 0).2 "src" 1

/-- Counterexample to claim C6 as stated: at `c6CexState`, `get_stats`
returns stats with `total = 1` but `pending + closed + downloaded + error
= 0`, because `downloaded_request_count` counts `DocumentDownload` rows,
not requests whose status is DOWNLOADED. -/
theorem claim_C6_counterexample :
    Reachable c6CexState
    ∧ ∃ stats : DatabaseStats, get_stats c6CexState = some stats
        ∧ ¬ (stats.total_request_count
              = stats.pending_request_count + stats.closed_request_count
                + stats.downloaded_request_count + stats.error_request_count) :=
  ⟨Reachable.scrapeDate "src" 1
      (Reachable.addRequest "src" "r1" .DOWNLOADED 0 "d" 5 0 Reachable.empty),
   ⟨{ total_request_count := 1, pending_request_count := 0,
      downloaded_request_count := 0, closed_request_count := 0,
      error_request_count := 0, last_scrape := 1, document_count := 0 },
    by decide, by decide⟩⟩

/-- Claim C6 (amended): whenever `get_stats` returns on a reachable state
(a scrape checkpoint must exist — otherwise `ScrapeMetadata.get()` raises
`DoesNotExist` out of `get_stats`), the request total is partitioned by
request status — `total = pending + closed + error + (number of requests
with status DOWNLOADED)` — while the `downloaded_request_count` field it
returns is the number of `DocumentDownload` rows, not a count of
downloaded requests. -/
theorem claim_C6_stats_partition (s : DBState) (h : Reachable s) :
    ∀ stats : DatabaseStats, get_stats s = some stats →
      stats.total_request_count
        = stats.pending_request_count + stats.closed_request_count
          + stats.error_request_count
          + (s.requests.filter (fun r =>
              r.request_status == RequestStatus.DOWNLOADED.value)).length
      ∧ stats.downloaded_request_count = s.downloads.length := by
  intro stats hst
  unfold get_stats at hst
  cases hm : s.scrapeMeta.head? with
  | none =>
    rw [hm] at hst
    cases hst
  | some m =>
    rw [hm] at hst
    simp only [Option.some_inj] at hst
    subst hst
    refine ⟨?_, rfl⟩
    show s.requests.length = _
    rw [length_eq_status_partition s.requests (statusesValid_reachable s h)]
    rfl

/-- The concrete reachable state for the claim C6 witness: one DOWNLOADED
request, one bulk download row, and a scrape checkpoint. -/
def c6WitnessState : DBState :=
  update_scrape_date
    (_add_download (add_request emptyDB "src" "r1" .DOWNLOADED 0 "d" 5 0).2
      (some 1) "/dl/a.zip" "c0" true 5 none 3).2 "src" 4

/-- Witness for claim C6 (amended) at `c6WitnessState`: `get_stats` returns
a concrete `DatabaseStats` and the partition identity holds there. -/
theorem claim_C6_witness :
    get_stats c6WitnessState
      = some { total_request_count := 1, pending_request_count := 0,
               downloaded_request_count := 1, closed_request_count := 0,
               error_request_count := 0, last_scrape := 4, document_count := 5 }
    ∧ (1 : Nat) = 0 + 0 + 0
        + (c6WitnessState.requests.filter (fun r =>
            r.request_status == RequestStatus.DOWNLOADED.value)).length
    ∧ (1 : Nat) = c6WitnessState.downloads.length := by
  have h := claim_C6_stats_partition c6WitnessState
    (Reachable.scrapeDate "src" 4
      (Reachable.addDl (some 1) "/dl/a.zip" "c0" true 5 none 3
        (Reachable.addRequest "src" "r1" .DOWNLOADED 0 "d" 5 0 Reachable.empty)))
    { total_request_count := 1, pending_request_count := 0,
      downloaded_request_count := 1, closed_request_count := 0,
      error_request_count := 0, last_scrape := 4, document_count := 5 }
    (by decide)
  exact ⟨by decide, h.1, h.2⟩

/-! ### Pagination (claim C7) — `NextRequestAPI._search` -/

/-- The value of `_search`'s running `consumed` counter when the loop test
for page `n` runs: total items of pages `0..n-1` as returned by the remote
(`resp.get(endpoint, [])` of each page). -/
def consumedAfter (pages : Nat → List String) : Nat → Nat
  | 0 => 0
  | n + 1 => consumedAfter pages n + (pages n).length

/-- `NextRequestAPI._search` (src/foiatool/apis/nextrequest.py): starting
from `page = 0`, `consumed = 0`, while `consumed < total_count` it consumes
the current page's items, yields them, and fetches the next page.  The
recursion is fuel-indexed: `none` means the fuel ran out before the loop
exited, so the real generator runs forever iff no fuel suffices. -/
def searchRun (pages : Nat → List String) (total : Nat) :
    Nat → Nat → Option (List (List String))
  | 0, _ => none
  | fuel + 1, k =>
    if consumedAfter pages k < total then
      match searchRun pages total fuel (k + 1) with
      | some rest => some (pages k :: rest)
      | none => none
    else some []

/-- Characterization of a terminating `_search` run started at page `k`:
pages are consumed in increasing order and the loop exits at the first
page index whose cumulative count reaches the total. -/
theorem searchRun_spec (pages : Nat → List String) (total : Nat) :
    ∀ (fuel k : Nat) (out : List (List String)),
      searchRun pages total fuel k = some out →
      (∀ i, i < out.length → out[i]? = some (pages (k + i)))
      ∧ total ≤ consumedAfter pages (k + out.length)
      ∧ (∀ j, j < out.length → consumedAfter pages (k + j) < total) := by
  intro fuel
  induction fuel with
  | zero => intro k out h; cases h
  | succ n ih =>
    intro k out h
    rw [searchRun] at h
    by_cases hc : consumedAfter pages k < total
    · rw [if_pos hc] at h
      cases hrec : searchRun pages total n (k + 1) with
      | none => rw [hrec] at h; cases h
      | some rest =>
        rw [hrec] at h
        obtain rfl : pages k :: rest = out := by
          simpa using h
        obtain ⟨h1, h2, h3⟩ := ih (k + 1) rest hrec
        refine ⟨?_, ?_, ?_⟩
        · intro i hi
          cases i with
          | zero => simp
          | succ j =>
            have hj : j < rest.length := by simpa using hi
            have := h1 j hj
            simpa [Nat.add_comm, Nat.add_left_comm] using this
        · have heq : k + (pages k :: rest).length = (k + 1) + rest.length := by
            simp [Nat.add_comm, Nat.add_left_comm]
          rw [heq]
          exact h2
        · intro j hj
          cases j with
          | zero => simpa using hc
          | succ j' =>
            have hj' : j' < rest.length := by simpa using hj
            have := h3 j' hj'
            have heq : k + (j' + 1) = (k + 1) + j' := by omega
            rw [heq]
            exact this
    · rw [if_neg hc] at h
      obtain rfl : ([] : List (List String)) = out := by simpa using h
      refine ⟨?_, ?_, ?_⟩
      · intro i hi; cases hi
      · simpa using Nat.le_of_not_lt hc
      · intro j hj; cases hj

/-- If the cumulative count reaches the total at some page, the loop
terminates given enough fuel. -/
theorem searchRun_of_reached (pages : Nat → List String) (total : Nat) :
    ∀ (n k : Nat), total ≤ consumedAfter pages (k + n) →
      ∃ out, searchRun pages total (n + 1) k = some out := by
  intro n
  induction n with
  | zero =>
    intro k h
    have hc : ¬ consumedAfter pages k < total := by
      simpa using Nat.not_lt_of_le h
    exact ⟨[], by rw [searchRun, if_neg hc]⟩
  | succ n ih =>
    intro k h
    by_cases hc : consumedAfter pages k < total
    · have h' : total ≤ consumedAfter pages ((k + 1) + n) := by
        have heq : (k + 1) + n = k + (n + 1) := by omega
        rw [heq]
        exact h
      obtain ⟨out, hout⟩ := ih (k + 1) h'
      exact ⟨pages k :: out, by rw [searchRun, if_pos hc, hout]⟩
    · exact ⟨[], by rw [searchRun, if_neg hc]⟩

/-- Counterexample to claim C7 as stated: the claim demands termination for
every sequence of page responses, but a remote reporting `total_count = 1`
while returning only empty pages makes the loop run forever — no amount of
fuel produces a result, because `consumed` never increases. -/
theorem claim_C7_counterexample :
    ¬ ∃ (fuel : Nat) (out : List (List String)),
      searchRun (fun _ => []) 1 fuel 0 = some out := by
  have hc : ∀ k, consumedAfter (fun _ => ([] : List String)) k = 0 := by
    intro k
    induction k with
    | zero => rfl
    | succ n ih => simp [consumedAfter, ih]
  have hrun : ∀ fuel k, searchRun (fun _ => []) 1 fuel k = none := by
    intro fuel
    induction fuel with
    | zero => intro k; rfl
    | succ n ih =>
      intro k
      rw [searchRun, if_pos (by simp [hc]), ih (k + 1)]
  rintro ⟨fuel, out, h⟩
  rw [hrun fuel 0] at h
  cases h

/-- Claim C7 (amended): `_search` requests pages in strictly increasing
order starting at page 0 — the i-th yielded chunk is page i — and when the
loop terminates it does so at the first page where the cumulative item
count has reached (≥) the reported `total_count`; it is guaranteed to
terminate whenever the cumulative count eventually reaches the total, but
not for every response sequence (see the counterexample). -/
theorem claim_C7_pagination :
    (∀ (pages : Nat → List String) (total fuel : Nat) (out : List (List String)),
      searchRun pages total fuel 0 = some out →
      (∀ i, i < out.length → out[i]? = some (pages i))
      ∧ total ≤ consumedAfter pages out.length
      ∧ (∀ j, j < out.length → consumedAfter pages j < total))
    ∧ (∀ (pages : Nat → List String) (total : Nat),
      (∃ k, total ≤ consumedAfter pages k) →
      ∃ (fuel : Nat) (out : List (List String)),
        searchRun pages total fuel 0 = some out) := by
  constructor
  · intro pages total fuel out h
    obtain ⟨h1, h2, h3⟩ := searchRun_spec pages total fuel 0 out h
    refine ⟨?_, ?_, ?_⟩
    · intro i hi
      simpa using h1 i hi
    · simpa using h2
    · intro j hj
      simpa using h3 j hj
  · intro pages total ⟨k, hk⟩
    obtain ⟨out, hout⟩ := searchRun_of_reached pages total k 0 (by simpa using hk)
    exact ⟨k + 1, out, hout⟩

/-- Witness for claim C7 (amended): a remote with one item on page 0 and a
faithful total of 1 — the run terminates and its consumed count covers the
total. -/
theorem claim_C7_witness :
    (1 ≤ consumedAfter (fun k => if k = 0 then ["a"] else []) [[("a" : String)]].length)
    ∧ ∃ (fuel : Nat) (out : List (List String)),
      searchRun (fun k => if k = 0 then ["a"] else []) 1 fuel 0 = some out :=
  ⟨(claim_C7_pagination.1 (fun k => if k = 0 then ["a"] else []) 1 2 [["a"]]
      (by decide)).2.1,
   claim_C7_pagination.2 (fun k => if k = 0 then ["a"] else []) 1 ⟨1, by decide⟩⟩

/-! ### Download replacement under OverWriteGuard (claim C3) -/

/-- The filesystem, as a map from path to file content. -/
def FS : Type := String → Option String

/-- Write (create or overwrite) a file. -/
def fsSet (fs : FS) (p v : String) : FS :=
  fun q => if q = p then some v else fs q

/-- `os.remove`. -/
def fsErase (fs : FS) (p : String) : FS :=
  fun q => if q = p then none else fs q

/-- `os.path.exists`. -/
def fsExists (fs : FS) (p : String) : Bool :=
  (fs p).isSome

/-- `os.rename`: move the file at `src` to `dst` (overwriting `dst`); the
call sites guard existence of `src`, so a missing `src` is a no-op here. -/
def fsRename (fs : FS) (src dst : String) : FS :=
  match fs src with
  | some v => fsSet (fsErase fs src) dst v
  | none => fs

/-- `OverWriteGuard.__enter__` (src/foiatool/foiatool.py lines 41-44):
if the guarded path is non-empty and exists, rename it to the `.bak`
backup. -/
def guardEnter (path : String) (fs : FS) : FS :=
  if (path != "") && fsExists fs path then fsRename fs path (path ++ ".bak") else fs

/-- `OverWriteGuard.__exit__` (src/foiatool/foiatool.py lines 46-51): if
the canonical path is gone but the backup exists, restore the backup;
otherwise drop the backup if present. -/
def guardExit (path : String) (fs : FS) : FS :=
  if (!fsExists fs path) && fsExists fs (path ++ ".bak") then
    fsRename fs (path ++ ".bak") path
  else if fsExists fs (path ++ ".bak") then fsErase fs (path ++ ".bak")
  else fs

/-- Outcome of the transfer attempted inside the guard
(src/foiatool/foiatool.py lines 168-181 with the download machinery of
nextrequest.py): on success the remote's archive is streamed to a staging
path under the download directory and then renamed onto the canonical
path; a failure (timeout etc.) raises out of the body, leaving at most a
partial file at the staging path and nothing new at the canonical path. -/
inductive TransferOutcome where
  | success (content : String)
  | failPart (part : String)
  | failClean
  deriving DecidableEq

/-- Effect of the guard's body on the filesystem for a given outcome. -/
def runTransfer (canonical staging : String) (out : TransferOutcome) (fs : FS) : FS :=
  match out with
  | .success c => fsRename (fsSet fs staging c) staging canonical
  | .failPart part => fsSet fs staging part
  | .failClean => fs

/-- The whole `with OverWriteGuard(path): download` block; `__exit__` runs
whether or not the body raised. -/
def guardedDownload (canonical staging : String) (out : TransferOutcome) (fs : FS) : FS :=
  guardExit canonical (runTransfer canonical staging out (guardEnter canonical fs))

/-- No path equals itself with the backup suffix appended. -/
theorem append_bak_ne (s : String) : s ++ ".bak" ≠ s := by
  intro h
  have h2 := congrArg String.length h
  rw [String.length_append] at h2
  have h4 : (".bak" : String).length = 4 := by decide
  rw [h4] at h2
  omega

/-- Claim C3: when the canonical path holds a pre-existing file as a
re-download begins under `OverWriteGuard`, any failure of the transfer
leaves the canonical path holding exactly the pre-existing content
(restored from the `.bak` backup) — never a truncated new file — while a
fully successful transfer replaces the content and only then removes the
backup copy.  The staging path (under the download directory) is distinct
from the canonical path and its backup. -/
theorem claim_C3_download_replacement (fs : FS) (canonical staging c : String)
    (hpre : fs canonical = some c)
    (hne : canonical ≠ "")
    (hs1 : staging ≠ canonical)
    (hs2 : staging ≠ canonical ++ ".bak") :
    (∀ part, guardedDownload canonical staging (.failPart part) fs canonical = some c)
    ∧ guardedDownload canonical staging .failClean fs canonical = some c
    ∧ (∀ c', guardedDownload canonical staging (.success c') fs canonical = some c'
        ∧ guardedDownload canonical staging (.success c') fs (canonical ++ ".bak") = none) := by
  have hbak2 : canonical ++ ".bak" ≠ canonical := append_bak_ne canonical
  have hbak1 : canonical ≠ canonical ++ ".bak" := fun h => hbak2 h.symm
  have hs1' : canonical ≠ staging := fun h => hs1 h.symm
  have hs2' : canonical ++ ".bak" ≠ staging := fun h => hs2 h.symm
  have henter : guardEnter canonical fs
      = fsSet (fsErase fs canonical) (canonical ++ ".bak") c := by
    unfold guardEnter
    have hcond : ((canonical != "") && fsExists fs canonical) = true := by
      simp [fsExists, hpre, bne_iff_ne, hne]
    rw [hcond]
    simp [fsRename, hpre]
  refine ⟨?_, ?_, ?_⟩
  · intro part
    simp only [guardedDownload, henter, runTransfer]
    simp [guardExit, fsExists, fsSet, fsErase, fsRename,
      hs1, hs2, hs1', hs2', hbak1, hbak2]
  · simp only [guardedDownload, henter, runTransfer]
    simp [guardExit, fsExists, fsSet, fsErase, fsRename,
      hs1, hs2, hs1', hs2', hbak1, hbak2]
  · intro c'
    constructor
    · simp only [guardedDownload, henter, runTransfer]
      simp [guardExit, fsExists, fsSet, fsErase, fsRename,
        hs1, hs2, hs1', hs2', hbak1, hbak2]
    · simp only [guardedDownload, henter, runTransfer]
      simp [guardExit, fsExists, fsSet, fsErase, fsRename,
        hs1, hs2, hs1', hs2', hbak1, hbak2]

/-- Witness for claim C3 on a concrete filesystem: a failed transfer keeps
the old bytes at the canonical path; a successful one replaces them. -/
theorem claim_C3_witness :
    guardedDownload "/d/a.zip" "/tmp/stage" (.failPart "PARTIAL")
        (fun q => if q = "/d/a.zip" then some "old" else none) "/d/a.zip" = some "old"
    ∧ guardedDownload "/d/a.zip" "/tmp/stage" (.success "new")
        (fun q => if q = "/d/a.zip" then some "old" else none) "/d/a.zip" = some "new" := by
  have h := claim_C3_download_replacement
    (fun q => if q = "/d/a.zip" then some "old" else none) "/d/a.zip" "/tmp/stage" "old"
    (by decide) (by decide) (by decide) (by decide)
  exact ⟨h.1 "PARTIAL", (h.2.2 "new").1⟩

/-! ### The orchestrator loop (claims C4, C5) — src/foiatool/foiatool.py

foiatool.py manipulates request rows through a data-layer API
(`fdb.DocumentRequest`, `mark_document_*`, `document_paths`,
`needs_download`) that is absent from src/foiatool/data.py in this
revision; the row shape and the status markers below are modelled from the
spec's state machine. -/

/-- The request-row shape used by src/foiatool/foiatool.py (the
`fdb.DocumentRequest` model referenced at its `normalize_file_name`
signature): external id, integer status, the recorded download path and
the needs-download flag. -/
structure DocRequestRow where
  request_id : String
  request_status : Nat
  document_paths : String
  needs_download : Bool
  deriving DecidableEq

/-- Modelled from the spec: `mark_document_error` (called by foiatool.py,
missing from src/foiatool/data.py which has only the `mark_request_error`
form) records the owning request's status as Error. -/
def mark_document_error (r : DocRequestRow) : DocRequestRow :=
  { r with request_status := RequestStatus.ERROR.value }

/-- Modelled from the spec: `mark_document_pending` re-enqueues a request
(the explicit redownload/repair transition back to Pending). -/
def mark_document_pending (r : DocRequestRow) : DocRequestRow :=
  { r with request_status := RequestStatus.PENDING.value }

/-- Modelled from the spec: `mark_document_closed` records the Closed
status. -/
def mark_document_closed (r : DocRequestRow) : DocRequestRow :=
  { r with request_status := RequestStatus.CLOSED.value }

/-- Modelled from the spec: `mark_document_downloaded` records a completed
download. -/
def mark_document_downloaded (r : DocRequestRow) : DocRequestRow :=
  { r with request_status := RequestStatus.DOWNLOADED.value }

/-- How the remote interaction for one pending request turns out, as seen
by `visit_pending_requests` (src/foiatool/foiatool.py lines 137-181):
skipped because the request is not closed; closed with zero documents;
metadata refreshed but no download needed; a completed download; or one of
the failure modes of the download promise — `TimeoutError`,
`concurrent.futures.InvalidStateError`, a `DownloadException` raised by
`_perform_bulk_download` when no job id or archive URL comes back
(nextrequest.py lines 91-93 and 118-119), or an HTTP error from
`raise_for_status`. -/
inductive FetchOutcome where
  | notClosed
  | zeroDocs
  | noDownloadNeeded
  | downloadOk
  | downloadTimeout
  | downloadInvalidState
  | downloadFailed
  | httpError
  deriving DecidableEq

/-- One iteration of the visit loop: the `except` clause catches only
`(TimeoutError, concurrent.futures.InvalidStateError)` and converts them
to an Error status; `DownloadException` and HTTP errors are not caught and
propagate (`Except.error`). -/
def visitItem (req : DocRequestRow) (out : FetchOutcome) : Except String DocRequestRow :=
  match out with
  | .notClosed => .ok req
  | .zeroDocs => .ok (mark_document_closed req)
  | .noDownloadNeeded => .ok req
  | .downloadOk => .ok (mark_document_downloaded req)
  | .downloadTimeout => .ok (mark_document_error req)
  | .downloadInvalidState => .ok (mark_document_error req)
  | .downloadFailed => .error "DownloadException"
  | .httpError => .error "HTTPError"

/-- The queue-processing loop of `visit_pending_requests` over the pending
list, each item paired with its remote outcome: items are processed in
order and an uncaught exception aborts the whole loop. -/
def visitLoop : List (DocRequestRow × FetchOutcome) → Except String (List DocRequestRow)
  | [] => .ok []
  | (r, o) :: rest =>
    match visitItem r o with
    | .ok updated =>
      match visitLoop rest with
      | .ok outs => .ok (updated :: outs)
      | .error e => .error e
    | .error e => .error e

/-- Counterexample to claim C4 as stated: a work item whose download fails
with `DownloadException` (missing job id or archive) aborts the loop with
the exception instead of marking the request Error and continuing — the
second, healthy item is never processed. -/
theorem claim_C4_counterexample :
    visitLoop
      [({ request_id := "R1", request_status := 1, document_paths := "/p1",
          needs_download := true }, .downloadFailed),
       ({ request_id := "R2", request_status := 1, document_paths := "/p2",
          needs_download := true }, .downloadOk)]
      = .error "DownloadException" := rfl

/-- Claim C4 (amended): only `TimeoutError` and `InvalidStateError`
download failures are contained — the owning request is marked Error and
the loop continues with the next item; `DownloadException` (missing job id
or archive) and HTTP errors are not caught: they propagate out of the
queue-processing loop and abort the run wherever they occur. -/
theorem claim_C4_error_containment :
    (∀ items : List (DocRequestRow × FetchOutcome),
      (∀ p ∈ items, p.2 ≠ FetchOutcome.downloadFailed ∧ p.2 ≠ FetchOutcome.httpError) →
      ∃ out : List DocRequestRow, visitLoop items = .ok out
        ∧ out.length = items.length
        ∧ (∀ (i : Nat) (r : DocRequestRow),
            items[i]? = some (r, FetchOutcome.downloadTimeout) →
            out[i]? = some (mark_document_error r))
        ∧ (∀ (i : Nat) (r : DocRequestRow),
            items[i]? = some (r, FetchOutcome.downloadInvalidState) →
            out[i]? = some (mark_document_error r)))
    ∧ (∀ (pre rest : List (DocRequestRow × FetchOutcome)) (r : DocRequestRow),
      (∀ p ∈ pre, p.2 ≠ FetchOutcome.downloadFailed ∧ p.2 ≠ FetchOutcome.httpError) →
      visitLoop (pre ++ (r, FetchOutcome.downloadFailed) :: rest) = .error "DownloadException")
    ∧ (∀ (pre rest : List (DocRequestRow × FetchOutcome)) (r : DocRequestRow),
      (∀ p ∈ pre, p.2 ≠ FetchOutcome.downloadFailed ∧ p.2 ≠ FetchOutcome.httpError) →
      visitLoop (pre ++ (r, FetchOutcome.httpError) :: rest) = .error "HTTPError") := by
  refine ⟨?_, ?_, ?_⟩
  · intro items h
    induction items with
    | nil =>
      refine ⟨[], rfl, rfl, ?_, ?_⟩ <;> intro i r hir <;> simp at hir
    | cons p rest ih =>
      obtain ⟨r, o⟩ := p
      have hp := h (r, o) (List.mem_cons_self _ _)
      have hrest := fun q hq => h q (List.mem_cons_of_mem _ hq)
      obtain ⟨out, hout, hlen, ht, hi⟩ := ih hrest
      have hok : ∃ updated, visitItem r o = .ok updated
          ∧ (o = FetchOutcome.downloadTimeout → updated = mark_document_error r)
          ∧ (o = FetchOutcome.downloadInvalidState → updated = mark_document_error r) := by
        cases o with
        | downloadFailed => exact absurd rfl hp.1
        | httpError => exact absurd rfl hp.2
        | notClosed =>
          refine ⟨r, rfl, ?_, ?_⟩ <;> intro h2 <;> cases h2
        | zeroDocs =>
          refine ⟨mark_document_closed r, rfl, ?_, ?_⟩ <;> intro h2 <;> cases h2
        | noDownloadNeeded =>
          refine ⟨r, rfl, ?_, ?_⟩ <;> intro h2 <;> cases h2
        | downloadOk =>
          refine ⟨mark_document_downloaded r, rfl, ?_, ?_⟩ <;> intro h2 <;> cases h2
        | downloadTimeout =>
          refine ⟨mark_document_error r, rfl, ?_, ?_⟩
          · intro h2; rfl
          · intro h2; cases h2
        | downloadInvalidState =>
          refine ⟨mark_document_error r, rfl, ?_, ?_⟩
          · intro h2; cases h2
          · intro h2; rfl
      obtain ⟨updated, hupd, htmo, hinv⟩ := hok
      refine ⟨updated :: out, ?_, ?_, ?_, ?_⟩
      · rw [visitLoop, hupd, hout]
      · simp [hlen]
      · intro i rr hir
        cases i with
        | zero =>
          simp only [List.getElem?_cons_zero, Option.some_inj, Prod.mk.injEq] at hir
          obtain ⟨hr1, hr2⟩ := hir
          subst hr1
          simpa using htmo hr2
        | succ j =>
          simp only [List.getElem?_cons_succ] at hir ⊢
          exact ht j rr hir
      · intro i rr hir
        cases i with
        | zero =>
          simp only [List.getElem?_cons_zero, Option.some_inj, Prod.mk.injEq] at hir
          obtain ⟨hr1, hr2⟩ := hir
          subst hr1
          simpa using hinv hr2
        | succ j =>
          simp only [List.getElem?_cons_succ] at hir ⊢
          exact hi j rr hir
  · intro pre rest r h
    induction pre with
    | nil => rfl
    | cons p pre' ih =>
      obtain ⟨r0, o0⟩ := p
      have hp := h (r0, o0) (List.mem_cons_self _ _)
      have h' := fun q hq => h q (List.mem_cons_of_mem _ hq)
      have hok : ∃ updated, visitItem r0 o0 = .ok updated := by
        cases o0 with
        | downloadFailed => exact absurd rfl hp.1
        | httpError => exact absurd rfl hp.2
        | _ => exact ⟨_, rfl⟩
      obtain ⟨updated, hupd⟩ := hok
      show visitLoop ((r0, o0) :: (pre' ++ _)) = _
      rw [visitLoop, hupd, ih h']
  · intro pre rest r h
    induction pre with
    | nil => rfl
    | cons p pre' ih =>
      obtain ⟨r0, o0⟩ := p
      have hp := h (r0, o0) (List.mem_cons_self _ _)
      have h' := fun q hq => h q (List.mem_cons_of_mem _ hq)
      have hok : ∃ updated, visitItem r0 o0 = .ok updated := by
        cases o0 with
        | downloadFailed => exact absurd rfl hp.1
        | httpError => exact absurd rfl hp.2
        | _ => exact ⟨_, rfl⟩
      obtain ⟨updated, hupd⟩ := hok
      show visitLoop ((r0, o0) :: (pre' ++ _)) = _
      rw [visitLoop, hupd, ih h']

/-- The concrete work list exercised by the claim C4 witness: a timed-out
item followed by a healthy one. -/
def c4WitnessItems : List (DocRequestRow × FetchOutcome) :=
  [({ request_id := "R1", request_status := 1, document_paths := "/p1",
      needs_download := true }, FetchOutcome.downloadTimeout),
   ({ request_id := "R2", request_status := 1, document_paths := "/p2",
      needs_download := true }, FetchOutcome.downloadOk)]

/-- Witness for claim C4 (amended): a timed-out item is converted to an
Error status and the loop keeps going to a healthy item after it. -/
theorem claim_C4_witness :
    ∃ out : List DocRequestRow,
      visitLoop c4WitnessItems = .ok out
      ∧ out.length = c4WitnessItems.length
      ∧ (∀ (i : Nat) (r : DocRequestRow),
          c4WitnessItems[i]? = some (r, FetchOutcome.downloadTimeout) →
          out[i]? = some (mark_document_error r))
      ∧ (∀ (i : Nat) (r : DocRequestRow),
          c4WitnessItems[i]? = some (r, FetchOutcome.downloadInvalidState) →
          out[i]? = some (mark_document_error r)) :=
  claim_C4_error_containment.1 c4WitnessItems (by decide)

/-! ### Repair (claim C5) — `repair_data` -/

/-- `os.path.basename` over the embedded path strings (split on the path
separator, take the last component). -/
def basename (p : String) : String :=
  String.mk ((p.data.splitOn '/').getLastD [])

/-- `fname.startswith(".com.google.Chrome")` — a stale Chrome temp file. -/
def isChromeTmp (name : String) : Bool :=
  ".com.google.Chrome".data.isPrefixOf name.data

/-- Handling of one request row inside the `repair_data` scan loop
(src/foiatool/foiatool.py lines 208-220): a request on the ignore list is
marked Error and counted; a DOWNLOADED request whose recorded path no
longer exists (or whose file name is a Chrome temp) is marked pending
(re-enqueued) and counted; everything else is untouched.  Returns the
updated row and the `bad_count` increment. -/
def repairStep (fs : FS) (ignore : List String) (r : DocRequestRow) :
    DocRequestRow × Nat :=
  if ignore.contains r.request_id then (mark_document_error r, 1)
  else if r.request_status == RequestStatus.DOWNLOADED.value
      && (!fsExists fs r.document_paths || isChromeTmp (basename r.document_paths)) then
    (mark_document_pending r, 1)
  else (r, 0)

/-- The orchestration state `repair_data` ranges over: the request rows it
scans, the `DocumentDownload` records (which the loop never reads or
writes), and the running `bad_count`. -/
structure RepairState where
  requests : List DocRequestRow
  downloads : List DocumentDownloadRow
  badCount : Nat
  deriving DecidableEq

/-- `repair_data` (src/foiatool/foiatool.py lines 199-223), up to the
concluding `visit_pending_requests` call: scan every request, apply
`repairStep`, and accumulate the broken-record count. -/
def repair_data (fs : FS) (ignore : List String) (st : RepairState) : RepairState :=
  { requests := st.requests.map (fun r => (repairStep fs ignore r).1)
    downloads := st.downloads
    badCount := st.badCount + (st.requests.map (fun r => (repairStep fs ignore r).2)).sum }

/-- Counterexample to claim C5 as stated.  A download record's checksum is
its content fingerprint; under the collision-free abstraction the record's
checksum "BYTES" identifies the file content, which is present on disk at
the new path "/dl/new.zip" while the recorded path "/dl/old.zip" is gone.
The claim demands that `repair()` update the record's path to the new
location and not re-enqueue the request; instead `repair_data` never looks
at checksums or download records at all — it marks the owning request
pending (re-enqueues it), counts it as a broken record, and leaves the
record's path at the stale "/dl/old.zip". -/
theorem claim_C5_counterexample :
    (repair_data (fun q => if q = "/dl/new.zip" then some "BYTES" else none) []
      { requests := [{ request_id := "R1", request_status := 3,
                       document_paths := "/dl/old.zip", needs_download := false }]
        downloads := [{ id := 1, request := some 1, document_id := none,
                        date_downloaded := 0, is_bulk := true,
                        download_path := "/dl/old.zip", checksum := "BYTES",
                        document_count := 1 }]
        badCount := 0 })
    = { requests := [{ request_id := "R1", request_status := 1,
                       document_paths := "/dl/old.zip", needs_download := false }]
        downloads := [{ id := 1, request := some 1, document_id := none,
                        date_downloaded := 0, is_bulk := true,
                        download_path := "/dl/old.zip", checksum := "BYTES",
                        document_count := 1 }]
        badCount := 1 }
    ∧ (fun q => if q = "/dl/new.zip" then some "BYTES" else none) "/dl/new.zip"
        = some "BYTES"
    ∧ (fun q => if q = "/dl/new.zip" then some "BYTES" else none) "/dl/old.zip"
        = none := by
  refine ⟨?_, rfl, rfl⟩
  decide

/-- The `bad_count` increment of one scan step is 1 exactly on the rows
the loop marks: ignored requests, and DOWNLOADED requests whose recorded
path is missing or is a Chrome temp file. -/
theorem repairStep_snd (fs : FS) (ignore : List String) (r : DocRequestRow) :
    (repairStep fs ignore r).2
      = (ignore.contains r.request_id
          || (r.request_status == RequestStatus.DOWNLOADED.value
              && (!fsExists fs r.document_paths
                  || isChromeTmp (basename r.document_paths)))).toNat := by
  unfold repairStep
  split
  · rename_i h1
    have h1' : r.request_id ∈ ignore := by simpa using h1
    simp [h1']
  · rename_i h1
    have h1' : r.request_id ∉ ignore := by simpa using h1
    split
    · rename_i h2
      simp [h1', h2]
    · rename_i h2
      have h2' : (r.request_status == RequestStatus.DOWNLOADED.value
          && (!fsExists fs r.document_paths
              || isChromeTmp (basename r.document_paths))) = false := by
        simpa using h2
      simp [h1', h2']

/-- Summing a 0/1 indicator over a list counts the rows satisfying the
predicate. -/
theorem sum_map_toNat_eq_length_filter {α : Type} (p : α → Bool) (l : List α) :
    (l.map (fun x => (p x).toNat)).sum = (l.filter p).length := by
  induction l with
  | nil => rfl
  | cons x xs ih =>
    rw [List.map_cons, List.sum_cons, List.filter_cons]
    cases hp : p x with
    | true =>
      rw [ih]
      simp [Nat.add_comm]
    | false =>
      rw [ih]
      simp

/-- Summing the per-row `bad_count` increments counts exactly the rows the
scan marks. -/
theorem repair_badCount_sum (fs : FS) (ignore : List String) (l : List DocRequestRow) :
    (l.map (fun r => (repairStep fs ignore r).2)).sum
      = (l.filter (fun r => ignore.contains r.request_id
          || (r.request_status == RequestStatus.DOWNLOADED.value
              && (!fsExists fs r.document_paths
                  || isChromeTmp (basename r.document_paths))))).length := by
  have hfun : (fun r => (repairStep fs ignore r).2)
      = fun r : DocRequestRow => (ignore.contains r.request_id
          || (r.request_status == RequestStatus.DOWNLOADED.value
              && (!fsExists fs r.document_paths
                  || isChromeTmp (basename r.document_paths)))).toNat :=
    funext (repairStep_snd fs ignore)
  rw [hfun, sum_map_toNat_eq_length_filter]

/-- Claim C5 (amended): `repair_data` never relocates download records by
checksum; the scan leaves every `DocumentDownload` row (paths and
checksums) untouched, marks every ignore-listed request Error, marks every
DOWNLOADED request whose recorded path no longer exists — and likewise one
whose file name is a stale Chrome temp prefix, even if that file exists —
Pending (re-enqueueing it), leaves all other requests unchanged, and the
broken-record count grows by exactly the number of rows so marked. -/
theorem claim_C5_repair_behavior (fs : FS) (ignore : List String) (st : RepairState) :
    (repair_data fs ignore st).downloads = st.downloads
    ∧ (∀ (i : Nat) (r : DocRequestRow), st.requests[i]? = some r →
        ignore.contains r.request_id = true →
        (repair_data fs ignore st).requests[i]? = some (mark_document_error r))
    ∧ (∀ (i : Nat) (r : DocRequestRow), st.requests[i]? = some r →
        ignore.contains r.request_id = false →
        r.request_status = RequestStatus.DOWNLOADED.value →
        fsExists fs r.document_paths = false →
        (repair_data fs ignore st).requests[i]? = some (mark_document_pending r))
    ∧ (∀ (i : Nat) (r : DocRequestRow), st.requests[i]? = some r →
        ignore.contains r.request_id = false →
        r.request_status = RequestStatus.DOWNLOADED.value →
        isChromeTmp (basename r.document_paths) = true →
        (repair_data fs ignore st).requests[i]? = some (mark_document_pending r))
    ∧ (∀ (i : Nat) (r : DocRequestRow), st.requests[i]? = some r →
        ignore.contains r.request_id = false →
        (r.request_status == RequestStatus.DOWNLOADED.value
          && (!fsExists fs r.document_paths || isChromeTmp (basename r.document_paths)))
          = false →
        (repair_data fs ignore st).requests[i]? = some r)
    ∧ (repair_data fs ignore st).badCount
        = st.badCount + (st.requests.filter (fun r =>
            ignore.contains r.request_id
            || (r.request_status == RequestStatus.DOWNLOADED.value
                && (!fsExists fs r.document_paths
                    || isChromeTmp (basename r.document_paths))))).length := by
  refine ⟨rfl, ?_, ?_, ?_, ?_, ?_⟩
  · intro i r hir hig
    have hig' : r.request_id ∈ ignore := by simpa using hig
    show (st.requests.map (fun x => (repairStep fs ignore x).1))[i]? = _
    rw [List.getElem?_map, hir]
    simp [repairStep, hig']
  · intro i r hir hig hst hex
    have hig' : r.request_id ∉ ignore := by simpa using hig
    show (st.requests.map (fun x => (repairStep fs ignore x).1))[i]? = _
    rw [List.getElem?_map, hir]
    simp [repairStep, hig', hst, hex]
  · intro i r hir hig hst hchrome
    have hig' : r.request_id ∉ ignore := by simpa using hig
    show (st.requests.map (fun x => (repairStep fs ignore x).1))[i]? = _
    rw [List.getElem?_map, hir]
    simp [repairStep, hig', hst, hchrome]
  · intro i r hir hig hcond
    have hig' : r.request_id ∉ ignore := by simpa using hig
    have hcond' : ¬(r.request_status = RequestStatus.DOWNLOADED.value
        ∧ (fsExists fs r.document_paths = false
            ∨ isChromeTmp (basename r.document_paths) = true)) := by
      rintro ⟨h1, h2 | h2⟩ <;> simp [h1, h2] at hcond
    show (st.requests.map (fun x => (repairStep fs ignore x).1))[i]? = _
    rw [List.getElem?_map, hir]
    simp [repairStep, hig', hcond']
  · show st.badCount + (st.requests.map (fun r => (repairStep fs ignore r).2)).sum = _
    rw [repair_badCount_sum]

/-- Witness for claim C5 (amended) at concrete states: a DOWNLOADED request
whose recorded path is missing is re-enqueued as pending; so is one whose
recorded file exists but is a stale Chrome temp file; and the scan counts
exactly the marked row. -/
theorem claim_C5_witness :
    (repair_data (fun q => if q = "/dl/new.zip" then some "BYTES" else none) []
      { requests := [{ request_id := "R1", request_status := 3,
                       document_paths := "/dl/old.zip", needs_download := false }]
        downloads := []
        badCount := 0 }).requests[0]?
      = some (mark_document_pending
          { request_id := "R1", request_status := 3,
            document_paths := "/dl/old.zip", needs_download := false })
    ∧ (repair_data (fun q => if q = "/dl/.com.google.Chrome.tmp" then some "X" else none) []
        { requests := [{ request_id := "R2", request_status := 3,
                         document_paths := "/dl/.com.google.Chrome.tmp",
                         needs_download := false }]
          downloads := []
          badCount := 0 }).requests[0]?
      = some (mark_document_pending
          { request_id := "R2", request_status := 3,
            document_paths := "/dl/.com.google.Chrome.tmp", needs_download := false })
    ∧ (repair_data (fun q => if q = "/dl/new.zip" then some "BYTES" else none) []
        { requests := [{ request_id := "R1", request_status := 3,
                         document_paths := "/dl/old.zip", needs_download := false }]
          downloads := []
          badCount := 0 }).badCount
      = 0 + ([({ request_id := "R1", request_status := 3,
                 document_paths := "/dl/old.zip", needs_download := false } : DocRequestRow)].filter
            (fun r => ([] : List String).contains r.request_id
              || (r.request_status == RequestStatus.DOWNLOADED.value
                  && (!fsExists (fun q => if q = "/dl/new.zip" then some "BYTES" else none)
                        r.document_paths
                      || isChromeTmp (basename r.document_paths))))).length := by
  have h1 := claim_C5_repair_behavior
    (fun q => if q = "/dl/new.zip" then some "BYTES" else none) []
    { requests := [{ request_id := "R1", request_status := 3,
                     document_paths := "/dl/old.zip", needs_download := false }]
      downloads := []
      badCount := 0 }
  have h2 := claim_C5_repair_behavior
    (fun q => if q = "/dl/.com.google.Chrome.tmp" then some "X" else none) []
    { requests := [{ request_id := "R2", request_status := 3,
                     document_paths := "/dl/.com.google.Chrome.tmp",
                     needs_download := false }]
      downloads := []
      badCount := 0 }
  exact ⟨h1.2.2.1 0
      { request_id := "R1", request_status := 3,
        document_paths := "/dl/old.zip", needs_download := false }
      (by decide) (by decide) (by decide) (by decide),
    h2.2.2.2.1 0
      { request_id := "R2", request_status := 3,
        document_paths := "/dl/.com.google.Chrome.tmp", needs_download := false }
      (by decide) (by decide) (by decide) (by decide),
    h1.2.2.2.2.2⟩

end Foiatool
